import Mathlib

/-!
Shallow embedding of the user-management core of the repository
(`services/user-management/apps/users/models.py` and `views.py`).

Time is modelled in minutes as a natural number `now`; Django's
`timezone.now()` becomes an explicit `now : Nat` parameter and
`timedelta(minutes := m)` becomes `+ m` (1 hour = 60).  Database rows
become Lean structures, tables become lists, and each Python method
becomes a pure function from old state to new state, translated
line by line from the source.
-/

namespace UserMgmt

/-- A session-summary record, the dict built by `User.add_session`
(models.py): `{id, ip_address, user_agent, created_at}`. -/
structure SessionRec where
  sid : String
  ip_address : String
  user_agent : String
  created_at : Nat
deriving DecidableEq, Repr

/-- The fields of the `User` model (models.py) that the verified
operations read or write.  `password` stands for the stored credential
(the source stores a hash; hashing is irrelevant to these claims).
`tenant` is the owning tenant's slug. -/
structure User where
  email : String
  tenant : String
  password : String
  is_active : Bool
  failed_login_attempts : Nat
  locked_until : Option Nat
  password_changed_at : Option Nat
  must_change_password : Bool
  active_sessions : List SessionRec
deriving DecidableEq, Repr

/-- `User.is_account_locked` (models.py lines 259-263): locked iff
`locked_until` is set and strictly in the future. -/
def is_account_locked (u : User) (now : Nat) : Bool :=
  match u.locked_until with
  | some t => decide (now < t)
  | none => false

/-- `User.increment_failed_login` (models.py lines 265-270): add one to
the counter, and if the new counter is at least 5 set
`locked_until = now + 30 minutes`; otherwise `locked_until` is left as
it was. -/
def increment_failed_login (u : User) (now : Nat) : User :=
  let u' := { u with failed_login_attempts := u.failed_login_attempts + 1 }
  if u'.failed_login_attempts ≥ 5 then
    { u' with locked_until := some (now + 30) }
  else
    u'

/-- `User.reset_failed_login` (models.py lines 272-276): zero the
counter and clear the lock. -/
def reset_failed_login (u : User) : User :=
  { u with failed_login_attempts := 0, locked_until := none }

/-- `User.add_session` (models.py lines 292-303): append the new
session summary, then keep only the last 10 (`active_sessions[-10:]`,
which for a list of length n is `drop (n - 10)`). -/
def add_session (u : User) (sid ip ua : String) (now : Nat) : User :=
  let s : SessionRec := ⟨sid, ip, ua, now⟩
  let l := u.active_sessions ++ [s]
  { u with active_sessions := l.drop (l.length - 10) }

/-- A row of the `Role` table (models.py): its direct permission set
(permission ids) and the optional `parent_role` id.  Roles are stored
flat and traversed by id, mirroring the foreign-key link. -/
structure Role where
  perms : List Nat
  parent : Option Nat
deriving DecidableEq, Repr

/-- `Role.get_all_permissions` (models.py lines 372-377), made total
with a fuel parameter bounding the recursion depth of the source:

    permissions = set(self.permissions.all())
    if self.parent_role:
        permissions.update(self.parent_role.get_all_permissions())
    return permissions

The source recurses into `parent_role` unconditionally, with no
visited set; `none` means the recursion did not bottom out within
`fuel` nested calls, i.e. the Python call would still be running (or
have died of RecursionError) at that depth. -/
def get_all_permissions (db : Nat → Option Role) (rid : Nat) : Nat → Option (Finset Nat)
  | 0 => none
  | fuel + 1 =>
    match db rid with
    | none => none
    | some r =>
      match r.parent with
      | none => some r.perms.toFinset
      | some pid =>
        match get_all_permissions db pid fuel with
        | none => none
        | some ps => some (r.perms.toFinset ∪ ps)

/-- A `LoginHistory` row as created by `AuthenticationView.post`
(views.py): email, success flag, and `failure_reason` (empty for a
success row, the model default). -/
structure HistoryRec where
  email : String
  success : Bool
  failure_reason : String
deriving DecidableEq, Repr

/-- The observable outcome of one call of `AuthenticationView.post`
(views.py lines 491-607): HTTP status, the response error message,
the `LoginHistory` rows created, the user table afterwards, whether a
`UserSession` row was created, and whether `authenticate` (password
verification) was reached. -/
structure AuthResult where
  status : Nat
  error_msg : Option String
  history : List HistoryRec
  users : List User
  session_created : Bool
  password_checked : Bool
deriving DecidableEq, Repr

/-- `User.objects.get(email=email)` with `DoesNotExist` as `none`
(emails are a unique column, so the first match is the row). -/
def find_user (db : List User) (email : String) : Option User :=
  db.find? (fun u => u.email == email)

/-- Saving a mutated user row back to the table (rows are keyed by
their unique email). -/
def update_user (db : List User) (email : String) (u' : User) : List User :=
  db.map (fun u => if u.email == email then u' else u)

/-- `authenticate(request, username=email, password=password)`: the
backend resolves the email and checks the password, returning `none`
on mismatch.  (The project's `MultiTenantModelBackend` is outside the
embedded files; password mismatch gives `none` in any Django backend,
and the `is_active` gate is kept in the view's own branch below, as
in the source.) -/
def dj_auth (db : List User) (email pw : String) : Option User :=
  match find_user db email with
  | some u => if u.password == pw then some u else none
  | none => none

/-- `AuthenticationView.post` after the lock short-circuit (views.py
lines 521-607): authenticate; on failure record `invalid_credentials`
against the target user (if the email exists) and answer 401
`Invalid credentials`; on an inactive user record `inactive_account`
and answer 403; otherwise reset the failure counter, create a session,
record the success row and answer 200. -/
def auth_after_lock (db : List User) (email pw : String) (now : Nat) : AuthResult :=
  match dj_auth db email pw with
  | none =>
    match find_user db email with
    | some tu =>
      let tu' := increment_failed_login tu now
      ⟨401, some "Invalid credentials", [⟨email, false, "invalid_credentials"⟩],
        update_user db email tu', false, true⟩
    | none =>
      ⟨401, some "Invalid credentials", [], db, false, true⟩
  | some u =>
    if u.is_active = false then
      ⟨403, some "Account is inactive", [⟨email, false, "inactive_account"⟩],
        db, false, true⟩
    else
      let u' := reset_failed_login u
      ⟨200, none, [⟨email, true, ""⟩], update_user db email u', true, true⟩

/-- `AuthenticationView.post` (views.py lines 491-607): resolve the
user by email; if resolved and `is_account_locked`, record an
`account_locked` failure row and answer 423 without ever calling
`authenticate`; otherwise continue with credential checking. -/
def auth_post (db : List User) (email pw : String) (now : Nat) : AuthResult :=
  match find_user db email with
  | some u =>
    if is_account_locked u now then
      ⟨423, some "Account is locked. Please try again later.",
        [⟨email, false, "account_locked"⟩], db, false, false⟩
    else
      auth_after_lock db email pw now
  | none =>
    auth_after_lock db email pw now

/-- A `PasswordResetToken` row (models.py lines 605-654). -/
structure ResetToken where
  user_email : String
  token : String
  expires_at : Nat
  is_used : Bool
  is_revoked : Bool
  used_at : Option Nat
deriving DecidableEq, Repr

/-- `PasswordResetToken.is_valid` (models.py lines 642-648): not used,
not revoked, not expired (expired means `expires_at < now`). -/
def token_is_valid (t : ResetToken) (now : Nat) : Bool :=
  if t.is_used || t.is_revoked then false
  else if t.expires_at < now then false
  else true

/-- `PasswordResetToken.mark_as_used` (models.py lines 650-654). -/
def mark_as_used (t : ResetToken) (now : Nat) : ResetToken :=
  { t with is_used := true, used_at := some now }

/-- `PasswordResetView.request_reset` (views.py lines 776-812): if the
email resolves to a user, create one fresh token expiring in 1 hour
(`now + 60` in minutes) and append it to the token table; nothing else
in the table is touched.  If the email is unknown the table is
unchanged (existence is not revealed). -/
def request_reset (store : List ResetToken) (users : List User)
    (email newTok : String) (now : Nat) : List ResetToken :=
  match find_user users email with
  | some u => store ++ [⟨u.email, newTok, now + 60, false, false, none⟩]
  | none => store

/-- The observable outcome of `PasswordResetView.reset_password`:
response error message (if any), the token table afterwards, and the
user table afterwards. -/
structure ResetOutcome where
  error_msg : Option String
  store : List ResetToken
  users : List User
deriving DecidableEq, Repr

/-- `PasswordResetView.reset_password` (views.py lines 814-870): look
the token up with `is_used=False, is_revoked=False` (`DoesNotExist`
answers `Invalid token`); if the found token fails `is_valid()` answer
`Invalid or expired token`; otherwise set the user's new password,
stamp `password_changed_at`, clear `must_change_password`, and mark the
token used.  (The source also revokes the user's `UserSession` rows, a
table outside this embedding's state.) -/
def reset_password (store : List ResetToken) (users : List User)
    (tok newPw : String) (now : Nat) : ResetOutcome :=
  match store.find? (fun t => t.token == tok && !t.is_used && !t.is_revoked) with
  | none => ⟨some "Invalid token", store, users⟩
  | some rt =>
    if token_is_valid rt now = false then
      ⟨some "Invalid or expired token", store, users⟩
    else
      let users' := users.map (fun u =>
        if u.email == rt.user_email then
          { u with password := newPw, password_changed_at := some now,
                   must_change_password := false }
        else u)
      let store' := store.map (fun t =>
        if t.token == rt.token then mark_as_used t now else t)
      ⟨none, store', users'⟩

/-- The `Tenant` fields the quota check reads (models.py lines 20-101). -/
structure TenantRec where
  slug : String
  max_users : Nat
deriving DecidableEq, Repr

/-- `User.objects.filter(tenant=tenant).count()` — all user rows of the
tenant, active or not. -/
def tenant_user_count (db : List User) (slug : String) : Nat :=
  (db.filter (fun u => u.tenant == slug)).length

/-- The tenant's active users only
(`User.objects.filter(tenant=tenant, is_active=True).count()`), the
quantity §4.1 of the spec says the quota compares. -/
def tenant_active_user_count (db : List User) (slug : String) : Nat :=
  (db.filter (fun u => u.tenant == slug && u.is_active)).length

/-- `UserViewSet.create` (views.py lines 95-130) reduced to its quota
gate: reject with `Tenant user limit reached` when
`tenant.max_users <= User.objects.filter(tenant=tenant).count()`,
otherwise save the new user row. -/
def create_user (db : List User) (t : TenantRec) (newu : User) :
    Except String (List User) :=
  if t.max_users ≤ tenant_user_count db t.slug then
    Except.error "Tenant user limit reached"
  else
    Except.ok (db ++ [newu])

/-- Whether `create_user` answered with the quota rejection. -/
def is_quota_error (r : Except String (List User)) : Bool :=
  match r with
  | Except.error _ => true
  | Except.ok _ => false

/-- A sequence of recorded failed logins, one call of
`increment_failed_login` per attempt, each at its own clock reading. -/
def apply_failures (u : User) (ts : List Nat) : User :=
  ts.foldl (fun a t => increment_failed_login a t) u

theorem inc_counter (u : User) (t : Nat) :
    (increment_failed_login u t).failed_login_attempts =
      u.failed_login_attempts + 1 := by
  simp only [increment_failed_login]
  split <;> rfl

theorem inc_no_lock (u : User) (t : Nat)
    (h : u.failed_login_attempts + 1 < 5) (hl : u.locked_until = none) :
    (increment_failed_login u t).locked_until = none := by
  simp only [increment_failed_login]
  split
  · next hcond => exact absurd hcond (by simp; omega)
  · exact hl

theorem inc_locks (u : User) (t : Nat) (h : 4 ≤ u.failed_login_attempts) :
    (increment_failed_login u t).locked_until = some (t + 30) := by
  simp only [increment_failed_login]
  split
  · rfl
  · next hcond => exact absurd (by simp; omega) hcond

theorem apply_failures_counter (ts : List Nat) (u : User) :
    (apply_failures u ts).failed_login_attempts =
      u.failed_login_attempts + ts.length := by
  induction ts generalizing u with
  | nil => rfl
  | cons t rest ih =>
    show (apply_failures (increment_failed_login u t) rest).failed_login_attempts = _
    rw [ih, inc_counter]
    simp only [List.length_cons]
    omega

theorem apply_failures_no_lock (ts : List Nat) (u : User)
    (h : u.failed_login_attempts + ts.length < 5) (hl : u.locked_until = none) :
    (apply_failures u ts).locked_until = none := by
  induction ts generalizing u with
  | nil => exact hl
  | cons t rest ih =>
    show (apply_failures (increment_failed_login u t) rest).locked_until = none
    have hlen : u.failed_login_attempts + 1 < 5 := by
      simp only [List.length_cons] at h; omega
    apply ih
    · rw [inc_counter]
      simp only [List.length_cons] at h; omega
    · exact inc_no_lock u t hlen hl

/-- A fresh user with no failed attempts and no lock, used to
instantiate the proved theorems. -/
def w0 : User := ⟨"a@b", "t", "pw", true, 0, none, none, false, []⟩

/-- Claim C4: starting from zero failed attempts and no lock, each
recorded failed login raises `failed_login_attempts` by exactly one;
fewer than five failures leave `locked_until` unset; the fifth
consecutive failure sets `locked_until` to exactly its own
`now + 30` minutes. -/
theorem fifth_failure_locks (u0 : User)
    (h0 : u0.failed_login_attempts = 0) (hl : u0.locked_until = none)
    (ts : List Nat) :
    (apply_failures u0 ts).failed_login_attempts = ts.length ∧
    (ts.length < 5 → (apply_failures u0 ts).locked_until = none) ∧
    (∀ l t, ts = l ++ [t] → ts.length = 5 →
      (apply_failures u0 ts).locked_until = some (t + 30)) := by
  refine ⟨?_, ?_, ?_⟩
  · rw [apply_failures_counter, h0]
    omega
  · intro h
    exact apply_failures_no_lock ts u0 (by omega) hl
  · intro l t heq hlen
    subst heq
    have hfold : apply_failures u0 (l ++ [t]) =
        increment_failed_login (apply_failures u0 l) t := by
      simp [apply_failures, List.foldl_append]
    rw [hfold]
    apply inc_locks
    rw [apply_failures_counter, h0]
    simp only [List.length_append, List.length_cons, List.length_nil] at hlen
    omega

/-- Witness for C4: a concrete user failing at minutes 11..15; the
counter ends at 5, three failures leave no lock, and the fifth failure
locks until minute 15 + 30. -/
theorem fifth_failure_locks_witness :
    (apply_failures w0 [11, 12, 13, 14, 15]).failed_login_attempts = 5 ∧
    (apply_failures w0 [11, 12, 13]).locked_until = none ∧
    (apply_failures w0 [11, 12, 13, 14, 15]).locked_until = some (15 + 30) :=
  ⟨(fifth_failure_locks w0 rfl rfl [11, 12, 13, 14, 15]).1,
   (fifth_failure_locks w0 rfl rfl [11, 12, 13]).2.1 (by decide),
   (fifth_failure_locks w0 rfl rfl [11, 12, 13, 14, 15]).2.2
     [11, 12, 13, 14] 15 rfl (by decide)⟩

/-- Claim C5: `reset_failed_login` (the successful-login reset called
at views.py line 560) zeroes the failure counter and clears
`locked_until`, so `is_account_locked` is false immediately afterwards,
whatever the prior counter and lock state were. -/
theorem successful_login_resets (u : User) :
    (reset_failed_login u).failed_login_attempts = 0 ∧
    (reset_failed_login u).locked_until = none ∧
    ∀ now, is_account_locked (reset_failed_login u) now = false :=
  ⟨rfl, rfl, fun _ => rfl⟩

/-- Claim C10: once the counter is at least 5, a further failed login
re-locks for 30 minutes from that failure's clock reading even though
the previous lock window has elapsed, and the counter keeps growing —
expiry of the window alone never resets it. -/
theorem relock_after_window (u : User) (now : Nat)
    (h5 : 5 ≤ u.failed_login_attempts)
    (hexp : is_account_locked u now = false) :
    (increment_failed_login u now).locked_until = some (now + 30) ∧
    (increment_failed_login u now).failed_login_attempts =
      u.failed_login_attempts + 1 :=
  ⟨inc_locks u now (by omega), inc_counter u now⟩

/-- A user whose lock window (until minute 10) has already elapsed at
minute 50 while the counter still reads 5. -/
def expired_lock_user : User := ⟨"e@b", "t", "pw", true, 5, some 10, none, false, []⟩

/-- Witness for C10: the expired-lock user is not locked at minute 50,
and one more failure re-locks until minute 80 with counter 6. -/
theorem relock_after_window_witness :
    (increment_failed_login expired_lock_user 50).locked_until = some (50 + 30) ∧
    (increment_failed_login expired_lock_user 50).failed_login_attempts =
      expired_lock_user.failed_login_attempts + 1 :=
  relock_after_window expired_lock_user 50 (by decide) (by decide)

/-- Claim C6: after `add_session` the session history holds at most 10
records, the new summary is its last element, and when the history was
already at 10 the oldest (head) record is dropped and the rest keep
their order. -/
theorem add_session_bounded (u : User) (sid ip ua : String) (now : Nat) :
    (add_session u sid ip ua now).active_sessions.length ≤ 10 ∧
    (add_session u sid ip ua now).active_sessions.getLast? =
      some ⟨sid, ip, ua, now⟩ ∧
    (u.active_sessions.length = 10 →
      (add_session u sid ip ua now).active_sessions =
        u.active_sessions.tail ++ [⟨sid, ip, ua, now⟩]) := by
  have hdrop : ∀ (k : Nat), k ≤ u.active_sessions.length →
      (u.active_sessions ++ [(⟨sid, ip, ua, now⟩ : SessionRec)]).drop k =
        u.active_sessions.drop k ++ [⟨sid, ip, ua, now⟩] := by
    intro k hk
    rw [List.drop_append_eq_append_drop]
    have : k - u.active_sessions.length = 0 := by omega
    rw [this, List.drop_zero]
  refine ⟨?_, ?_, ?_⟩
  · simp only [add_session, List.length_drop, List.length_append,
      List.length_cons, List.length_nil]
    omega
  · simp only [add_session]
    rw [hdrop _ (by simp)]
    exact List.getLast?_concat _
  · intro h10
    simp only [add_session]
    rw [hdrop _ (by simp)]
    have : (u.active_sessions ++ [(⟨sid, ip, ua, now⟩ : SessionRec)]).length - 10 = 1 := by
      simp [h10]
    rw [this, List.drop_one]

/-- A user whose session history already holds exactly 10 records. -/
def full_history_user : User :=
  { w0 with active_sessions :=
      [⟨"s0", "i", "a", 0⟩, ⟨"s1", "i", "a", 1⟩, ⟨"s2", "i", "a", 2⟩,
       ⟨"s3", "i", "a", 3⟩, ⟨"s4", "i", "a", 4⟩, ⟨"s5", "i", "a", 5⟩,
       ⟨"s6", "i", "a", 6⟩, ⟨"s7", "i", "a", 7⟩, ⟨"s8", "i", "a", 8⟩,
       ⟨"s9", "i", "a", 9⟩] }

/-- Witness for C6: adding an 11th session to a full history keeps the
bound, puts the new record last, and evicts exactly the oldest. -/
theorem add_session_bounded_witness :
    (add_session full_history_user "new" "ip" "ua" 99).active_sessions.length ≤ 10 ∧
    (add_session full_history_user "new" "ip" "ua" 99).active_sessions.getLast? =
      some ⟨"new", "ip", "ua", 99⟩ ∧
    (add_session full_history_user "new" "ip" "ua" 99).active_sessions =
      full_history_user.active_sessions.tail ++ [⟨"new", "ip", "ua", 99⟩] :=
  ⟨(add_session_bounded full_history_user "new" "ip" "ua" 99).1,
   (add_session_bounded full_history_user "new" "ip" "ua" 99).2.1,
   (add_session_bounded full_history_user "new" "ip" "ua" 99).2.2 (by decide)⟩

/-- The malformed cyclic hierarchy of the claim: role 0 (A) with direct
permission 10 and parent 1 (B); role 1 with direct permission 20 and
parent 0. -/
def cyc_db : Nat → Option Role := fun i =>
  if i = 0 then some ⟨[10], some 1⟩
  else if i = 1 then some ⟨[20], some 0⟩
  else none

/-- Claim C1 (code bug): on the two-role cycle A↔B,
`Role.get_all_permissions` never returns, at any recursion depth — the
source walks `parent_role` with no visited set, so the claimed
termination with the union {10, 20} does not happen. -/
theorem cyclic_resolution_diverges :
    ∀ fuel, get_all_permissions cyc_db 0 fuel = none ∧
            get_all_permissions cyc_db 1 fuel = none := by
  intro fuel
  induction fuel with
  | zero => exact ⟨rfl, rfl⟩
  | succ n ih =>
    constructor
    · show get_all_permissions cyc_db 0 (n + 1) = none
      simp [get_all_permissions, cyc_db, ih.2]
    · show get_all_permissions cyc_db 1 (n + 1) = none
      simp [get_all_permissions, cyc_db, ih.1]

/-- An unused, unrevoked token for user `a@b` expiring at minute 100. -/
def tok1 : ResetToken := ⟨"a@b", "t1", 100, false, false, none⟩

/-- Claim C2 (code bug): `request_reset` only appends the fresh token;
the previously issued unused token survives, still satisfies
`is_valid()` right after the new issuance, and consuming it still
succeeds instead of failing with `InvalidToken`. -/
theorem reset_issue_leaves_old_token_live :
    tok1 ∈ request_reset [tok1] [w0] "a@b" "t2" 0 ∧
    token_is_valid tok1 0 = true ∧
    (reset_password (request_reset [tok1] [w0] "a@b" "t2" 0) [w0] "t1" "np" 0).error_msg
      = none := by decide

/-- A tenant with room for one user. -/
def quota_tenant : TenantRec := ⟨"t", 1⟩

/-- A deactivated (non-active) user of tenant `t`. -/
def inactive_user : User := ⟨"x@y", "t", "pw", false, 0, none, none, false, []⟩

/-- Counterexample to claim C7 as stated: the tenant's active-user
count (0) is below `max_users` (1), yet `UserViewSet.create` rejects
with the quota error, because the source compares `max_users` against
the count of all tenant users, active or not. -/
theorem quota_claim_cex :
    tenant_active_user_count [inactive_user] quota_tenant.slug
      < quota_tenant.max_users ∧
    is_quota_error (create_user [inactive_user] quota_tenant w0) = true := by
  decide

/-- Claim C7 as amended: creation fails with the quota error exactly
when the tenant's total user count (active and inactive alike) has
reached `max_users`; below that total the new user row is saved. -/
theorem quota_exact_total_count (db : List User) (t : TenantRec) (newu : User) :
    (is_quota_error (create_user db t newu) = true ↔
      t.max_users ≤ tenant_user_count db t.slug) ∧
    (tenant_user_count db t.slug < t.max_users →
      create_user db t newu = Except.ok (db ++ [newu])) := by
  constructor
  · by_cases h : t.max_users ≤ tenant_user_count db t.slug <;>
      simp [create_user, is_quota_error, h]
  · intro h
    have hn : ¬ t.max_users ≤ tenant_user_count db t.slug := by omega
    simp [create_user, hn]

/-- A tenant with room for three users. -/
def roomy_tenant : TenantRec := ⟨"t", 3⟩

/-- Witness for the amended C7: with one existing user and a cap of 3,
creation saves the new row, and the error test agrees with the total
count. -/
theorem quota_exact_total_count_witness :
    (is_quota_error (create_user [inactive_user] roomy_tenant w0) = true ↔
      roomy_tenant.max_users ≤ tenant_user_count [inactive_user] roomy_tenant.slug) ∧
    create_user [inactive_user] roomy_tenant w0 =
      Except.ok ([inactive_user] ++ [w0]) :=
  ⟨(quota_exact_total_count [inactive_user] roomy_tenant w0).1,
   (quota_exact_total_count [inactive_user] roomy_tenant w0).2 (by decide)⟩

/-- Claim C3: when the resolved user is locked, `AuthenticationView.post`
answers 423 with the lock message, records exactly one `account_locked`
failure row, leaves the user table unchanged, and never reaches
`authenticate` — all regardless of the supplied password. -/
theorem locked_account_rejected (db : List User) (email pw : String)
    (now : Nat) (u : User)
    (hu : find_user db email = some u)
    (hl : is_account_locked u now = true) :
    (auth_post db email pw now).status = 423 ∧
    (auth_post db email pw now).error_msg =
      some "Account is locked. Please try again later." ∧
    (auth_post db email pw now).history = [⟨email, false, "account_locked"⟩] ∧
    (auth_post db email pw now).password_checked = false ∧
    (auth_post db email pw now).users = db := by
  simp [auth_post, hu, hl]

/-- A user locked until minute 100 after five failures; the stored
password is `pw`. -/
def locked_user : User := ⟨"l@b", "t", "pw", true, 5, some 100, none, false, []⟩

/-- Witness for C3: at minute 50 — inside the lock window — even the
correct password `pw` is rejected with 423, `account_locked` is
recorded, and password verification is never attempted. -/
theorem locked_account_rejected_witness :
    (auth_post [locked_user] "l@b" "pw" 50).status = 423 ∧
    (auth_post [locked_user] "l@b" "pw" 50).error_msg =
      some "Account is locked. Please try again later." ∧
    (auth_post [locked_user] "l@b" "pw" 50).history =
      [⟨"l@b", false, "account_locked"⟩] ∧
    (auth_post [locked_user] "l@b" "pw" 50).password_checked = false ∧
    (auth_post [locked_user] "l@b" "pw" 50).users = [locked_user] :=
  locked_account_rejected [locked_user] "l@b" "pw" 50 locked_user
    (by decide) (by decide)

/-- Claim C9: an attempt with an unknown email and an attempt with the
email of an existing active, unlocked user but a wrong password get the
same status code and the same outer error message, so the response does
not reveal whether the account exists. -/
theorem enumeration_indistinguishable (db : List User)
    (e1 e2 pw1 pw2 : String) (now : Nat) (u : User)
    (h1 : find_user db e1 = none)
    (h2 : find_user db e2 = some u)
    (hact : u.is_active = true)
    (hnl : is_account_locked u now = false)
    (hpw : u.password ≠ pw2) :
    (auth_post db e1 pw1 now).status = (auth_post db e2 pw2 now).status ∧
    (auth_post db e1 pw1 now).error_msg = (auth_post db e2 pw2 now).error_msg := by
  have hbeq : (u.password == pw2) = false := beq_eq_false_iff_ne.mpr hpw
  constructor <;>
    simp [auth_post, auth_after_lock, dj_auth, h1, h2, hnl, hbeq]

/-- Witness for C9: against a table holding only the active unlocked
user `a@b`, the unknown email `ghost@b` and a wrong-password attempt on
`a@b` produce identical outer responses. -/
theorem enumeration_indistinguishable_witness :
    (auth_post [w0] "ghost@b" "x" 0).status =
      (auth_post [w0] "a@b" "wrong" 0).status ∧
    (auth_post [w0] "ghost@b" "x" 0).error_msg =
      (auth_post [w0] "a@b" "wrong" 0).error_msg :=
  enumeration_indistinguishable [w0] "ghost@b" "a@b" "x" "wrong" 0 w0
    (by decide) (by decide) (by decide) (by decide) (by decide)

theorem find_token_filtered (store : List ResetToken) (T : ResetToken)
    (hmem : T ∈ store)
    (huniq : ∀ t ∈ store, t.token = T.token → t = T) :
    store.find? (fun t => t.token == T.token && !t.is_used && !t.is_revoked) =
      (if !T.is_used && !T.is_revoked then some T else none) := by
  induction store with
  | nil => cases hmem
  | cons h rest ih =>
    by_cases hh : h = T
    · subst hh
      by_cases hu : (!h.is_used && !h.is_revoked) = true
      · rw [List.find?_cons_of_pos, if_pos hu]
        simpa using hu
      · rw [List.find?_cons_of_neg, if_neg hu]
        · rw [List.find?_eq_none]
          intro x hx
          by_cases hxt : x.token = h.token
          · have hxh : x = h := huniq x (List.mem_cons_of_mem _ hx) hxt
            subst hxh
            simpa using hu
          · have hbe : (x.token == h.token) = false := beq_eq_false_iff_ne.mpr hxt
            simp [hbe]
        · simpa using hu
    · have hht : h.token ≠ T.token := fun hc => hh (huniq h (List.mem_cons_self _ _) hc)
      have hbe : (h.token == T.token) = false := beq_eq_false_iff_ne.mpr hht
      rw [List.find?_cons_of_neg]
      · apply ih
        · cases hmem with
          | head => exact absurd rfl hh
          | tail _ hm => exact hm
        · intro t ht htk
          exact huniq t (List.mem_cons_of_mem _ ht) htk
      · simp [hbe]

/-- Claim C8: for a stored token `T` (token strings are a unique
column), `reset_password` fails exactly when `T` does not satisfy
`is_valid()`; on failure neither the token table nor the user table
changes; on success the token is marked used with `used_at` stamped and
every user row with the token's email gets the new password,
`password_changed_at` stamped and `must_change_password` cleared, in
the same call. -/
theorem consume_token_exact (store : List ResetToken) (users : List User)
    (newPw : String) (now : Nat) (T : ResetToken)
    (hmem : T ∈ store)
    (huniq : ∀ t ∈ store, t.token = T.token → t = T) :
    ((reset_password store users T.token newPw now).error_msg ≠ none ↔
      token_is_valid T now = false) ∧
    ((reset_password store users T.token newPw now).error_msg ≠ none →
      (reset_password store users T.token newPw now).store = store ∧
      (reset_password store users T.token newPw now).users = users) ∧
    (token_is_valid T now = true →
      (reset_password store users T.token newPw now).error_msg = none ∧
      mark_as_used T now ∈ (reset_password store users T.token newPw now).store ∧
      ∀ u' ∈ (reset_password store users T.token newPw now).users,
        u'.email = T.user_email →
          u'.password = newPw ∧ u'.password_changed_at = some now ∧
          u'.must_change_password = false) := by
  have hfind := find_token_filtered store T hmem huniq
  by_cases hc : (!T.is_used && !T.is_revoked) = true
  · rw [if_pos hc] at hfind
    by_cases hv : token_is_valid T now = true
    · have hred : reset_password store users T.token newPw now =
          ⟨none,
           store.map (fun t => if t.token == T.token then mark_as_used t now else t),
           users.map (fun u => if u.email == T.user_email then
             { u with password := newPw, password_changed_at := some now,
                      must_change_password := false } else u)⟩ := by
        simp only [reset_password, hfind]
        rw [if_neg (by simp [hv])]
      refine ⟨?_, ?_, ?_⟩
      · rw [hred]
        simp [hv]
      · rw [hred]
        intro hcontra
        exact absurd rfl hcontra
      · intro _
        refine ⟨by rw [hred], ?_, ?_⟩
        · rw [hred]
          have hmm := List.mem_map_of_mem
            (fun t => if t.token == T.token then mark_as_used t now else t) hmem
          simpa using hmm
        · rw [hred]
          intro u' hu' heq
          obtain ⟨u, hu, rfl⟩ := List.mem_map.mp hu'
          by_cases he : (u.email == T.user_email) = true
          · simp [he]
          · rw [if_neg (by simp [he])] at heq ⊢
            exact absurd heq (by simpa using he)
    · have hvf : token_is_valid T now = false := Bool.eq_false_iff.mpr hv
      have hred : reset_password store users T.token newPw now =
          ⟨some "Invalid or expired token", store, users⟩ := by
        simp only [reset_password, hfind]
        rw [if_pos hvf]
      refine ⟨?_, ?_, ?_⟩
      · rw [hred]
        simp [hvf]
      · rw [hred]
        exact fun _ => ⟨rfl, rfl⟩
      · intro hcontra
        rw [hvf] at hcontra
        cases hcontra
  · rw [if_neg hc] at hfind
    have hred : reset_password store users T.token newPw now =
        ⟨some "Invalid token", store, users⟩ := by
      simp only [reset_password, hfind]
    have hvf : token_is_valid T now = false := by
      unfold token_is_valid
      cases hu : T.is_used <;> cases hr : T.is_revoked <;> simp_all
    refine ⟨?_, ?_, ?_⟩
    · rw [hred]
      simp [hvf]
    · rw [hred]
      exact fun _ => ⟨rfl, rfl⟩
    · intro hcontra
      rw [hvf] at hcontra
      cases hcontra

/-- An unused, unrevoked token `tw` for user `a@b` expiring at
minute 100, stored alone. -/
def tokW : ResetToken := ⟨"a@b", "tw", 100, false, false, none⟩

/-- Witness for C8: consuming the valid token `tw` at minute 5 raises
no error, and the token reappears marked used with `used_at = 5`. -/
theorem consume_token_exact_witness :
    ((reset_password [tokW] [w0] "tw" "np" 5).error_msg ≠ none ↔
      token_is_valid tokW 5 = false) ∧
    (reset_password [tokW] [w0] "tw" "np" 5).error_msg = none ∧
    mark_as_used tokW 5 ∈ (reset_password [tokW] [w0] "tw" "np" 5).store :=
  have h := consume_token_exact [tokW] [w0] "np" 5 tokW (by decide) (by decide)
  ⟨h.1, (h.2.2 (by decide)).1, (h.2.2 (by decide)).2.1⟩

end UserMgmt
